import Mathlib

/-!
Verification development for the religiousAI repository.

The repository is a retrieval-augmented chat application in Python.  This file
gives a shallow embedding of the parts of the code the claims C1..C10 concern:

* `safety.py`   — crisis / deity-treatment detection (regular-expression search),
* `build_index.py` — ingestion metadata tagging,
* `agents.py`   — the "multi-agent" prompting pipeline,
* `qa.py`       — retrieval and question answering,
* `community.py`— compatibility scoring and file-based profile CRUD.

External collaborators (the Gemini LLM API, the Chroma vector store, the file
system, `datetime.now`, the md5 hash used for profile paths, and the
`memory.py` context renderer, which itself performs network I/O) are modelled
as explicit oracle parameters; everything else is translated from the source.
Where a function performs a sequence of external calls, the oracle is threaded
through an explicit call log so that theorems can speak about which calls are
made and in which order.
-/

/-! ## Python string primitives

The Python `str` operations used by the code, modelled on `List Char` /
`String`.  Python's `lower`, `title` and `strip` are modelled at ASCII level,
which covers every string the code applies them to. -/

/-- Python `str.lower()` (ASCII). -/
def pyLower (s : String) : String := String.mk (s.data.map Char.toLower)

/-- Python `needle in hay` substring test on character lists.
`[] ⊆ hay` holds, as in Python. -/
def listIsSub (needle hay : List Char) : Bool :=
  needle.isPrefixOf hay ||
    match hay with
    | [] => false
    | _ :: rest => listIsSub needle rest

/-- Python `needle in hay` substring test on strings. -/
def pyContains (hay needle : String) : Bool := listIsSub needle.data hay.data

/-- Python `str.replace(old, new)` on character lists: non-overlapping
occurrences replaced left to right.  The recursion is fuelled (structural on
`fuel`) so that it reduces in the kernel; `fuel = s.length` always suffices,
since a non-empty match consumes at least one character.  (The code only
calls `replace` with a non-empty `old`; for `old = []` this returns the
string unchanged.) -/
def listReplaceGo : Nat → List Char → List Char → List Char → List Char
  | _, [], _, _ => []
  | 0, s, _, _ => s
  | fuel + 1, c :: rest, old, new =>
    if old ≠ [] ∧ old.isPrefixOf (c :: rest) then
      new ++ listReplaceGo fuel (List.drop old.length (c :: rest)) old new
    else
      c :: listReplaceGo fuel rest old new

def listReplace (s old new : List Char) : List Char :=
  listReplaceGo s.length s old new

/-- Python `str.replace(old, new)` on strings. -/
def pyReplace (s old new : String) : String :=
  String.mk (listReplace s.data old.data new.data)

/-- One step of Python `str.title()`: a letter is uppercased when the previous
character is not a letter, lowercased otherwise (ASCII-cased model). -/
def titleChars : Bool → List Char → List Char
  | _, [] => []
  | prevAlpha, c :: rest =>
    if c.isAlpha then
      (if prevAlpha then c.toLower else c.toUpper) :: titleChars true rest
    else
      c :: titleChars false rest

/-- Python `str.title()`. -/
def pyTitle (s : String) : String := String.mk (titleChars false s.data)

/-- Python `\s` / whitespace (ASCII): space, tab, newline, carriage return,
vertical tab, form feed. -/
def isSpaceChar (c : Char) : Bool :=
  c == ' ' || c == '\t' || c == '\n' || c == '\r' || c == '\x0b' || c == '\x0c'

/-- Python `str.strip()`: drop leading and trailing whitespace. -/
def pyStrip (s : String) : String :=
  String.mk (((s.data.dropWhile isSpaceChar).reverse.dropWhile isSpaceChar).reverse)

/-- Python `str.split('\n')` on characters: split at every newline, keeping
empty pieces. -/
def splitNL : List Char → List (List Char)
  | [] => [[]]
  | '\n' :: rest => [] :: splitNL rest
  | c :: rest =>
    match splitNL rest with
    | [] => [[c]]
    | g :: gs => (c :: g) :: gs

/-- Python `str.split('\n')`. -/
def pySplitLines (s : String) : List String := (splitNL s.data).map String.mk

/-- Python `s[:n]` character-truncation. -/
def pyTake (s : String) (n : Nat) : String := String.mk (s.data.take n)

/-- Python `str.endswith(suffix)`. -/
def pyEndsWith (s suffix : String) : Bool := suffix.data.isSuffixOf s.data

/-- Python `"sep".join(parts)`. -/
def pyJoin (sep : String) (parts : List String) : String :=
  match parts with
  | [] => ""
  | p :: rest => rest.foldl (fun acc q => acc ++ sep ++ q) p

/-! ## A small regular-expression engine

`safety.py` matches fixed regular expressions against user text.  The
patterns use only literals, character classes, alternation, `(...)?`,
`\s*` and the word-boundary assertion `\b`; the engine below implements
exactly these constructs by continuation-passing backtracking.  The
continuation receives the previous character (needed by `\b`) and the
remaining input. -/

inductive Rx where
  | eps
  | lit (c : Char)
  | cls (cs : List Char)
  | seq (a b : Rx)
  | alt (a b : Rx)
  | opt (a : Rx)
  | wsStar
  | wb
deriving Repr

/-- `\w` for `\b` purposes: letters, digits, underscore. -/
def isWordChar (c : Char) : Bool := c.isAlphanum || c == '_'

/-- Match `\s*`: try the continuation after each whitespace prefix. -/
def wsRun (prev : Option Char) (s : List Char) (k : Option Char → List Char → Bool) : Bool :=
  k prev s ||
    match s with
    | [] => false
    | c :: rest => isSpaceChar c && wsRun (some c) rest k

/-- Backtracking matcher.  `prev` is the character before the current
position (`none` at the start of the text). -/
def matchRx : Rx → Option Char → List Char → (Option Char → List Char → Bool) → Bool
  | .eps, prev, s, k => k prev s
  | .lit c, _, s, k =>
    match s with
    | [] => false
    | c2 :: rest => c == c2 && k (some c2) rest
  | .cls cs, _, s, k =>
    match s with
    | [] => false
    | c2 :: rest => cs.contains c2 && k (some c2) rest
  | .seq a b, prev, s, k => matchRx a prev s (fun p2 s2 => matchRx b p2 s2 k)
  | .alt a b, prev, s, k => matchRx a prev s k || matchRx b prev s k
  | .opt a, prev, s, k => matchRx a prev s k || k prev s
  | .wsStar, prev, s, k => wsRun prev s k
  | .wb, prev, s, k =>
    let l := match prev with | none => false | some c => isWordChar c
    let r := match s with | [] => false | c :: _ => isWordChar c
    (l != r) && k prev s

/-- `re.search`: try a match at every start position. -/
def searchFrom (r : Rx) (prev : Option Char) (s : List Char) : Bool :=
  matchRx r prev s (fun _ _ => true) ||
    match s with
    | [] => false
    | c :: rest => searchFrom r (some c) rest

/-- Whether `re.search(r, s)` finds a match. -/
def reSearch (r : Rx) (s : String) : Bool := searchFrom r none s.data

/-- Literal string as a regex. -/
def strRx (s : String) : Rx := s.data.foldr (fun c acc => Rx.seq (.lit c) acc) .eps

/-- Sequence of regexes. -/
def rseq (l : List Rx) : Rx := l.foldr .seq .eps

/-- Alternation of a head and further branches. -/
def ralt (a : Rx) (rest : List Rx) : Rx := rest.foldl .alt a

def ws : Rx := Rx.wsStar

def apos : Char := '\''

/-! ## safety.py -/

/-- `\b(kill\s*(my)?self|suicide|suicidal|end\s*(my|it\s*all)|want\s*to\s*die)\b` -/
def CRISIS_PATTERN_1 : Rx :=
  rseq [.wb, ralt
    (rseq [strRx "kill", ws, .opt (strRx "my"), strRx "self"])
    [strRx "suicide", strRx "suicidal",
     rseq [strRx "end", ws, .alt (strRx "my") (rseq [strRx "it", ws, strRx "all"])],
     rseq [strRx "want", ws, strRx "to", ws, strRx "die"]], .wb]

/-- `\b(cut(ting)?\s*myself|hurt(ing)?\s*myself|self[- ]?harm)\b` -/
def CRISIS_PATTERN_2 : Rx :=
  rseq [.wb, ralt
    (rseq [strRx "cut", .opt (strRx "ting"), ws, strRx "myself"])
    [rseq [strRx "hurt", .opt (strRx "ing"), ws, strRx "myself"],
     rseq [strRx "self", .opt (.cls ['-', ' ']), strRx "harm"]], .wb]

/-- `\b(no\s*reason\s*to\s*live|better\s*off\s*dead|can\'?t\s*go\s*on)\b` -/
def CRISIS_PATTERN_3 : Rx :=
  rseq [.wb, ralt
    (rseq [strRx "no", ws, strRx "reason", ws, strRx "to", ws, strRx "live"])
    [rseq [strRx "better", ws, strRx "off", ws, strRx "dead"],
     rseq [strRx "can", .opt (.lit apos), strRx "t", ws, strRx "go", ws, strRx "on"]], .wb]

/-- `\b(planning\s*to\s*(end|kill)|goodbye\s*(letter|note|world))\b` -/
def CRISIS_PATTERN_4 : Rx :=
  rseq [.wb, ralt
    (rseq [strRx "planning", ws, strRx "to", ws, .alt (strRx "end") (strRx "kill")])
    [rseq [strRx "goodbye", ws,
           ralt (strRx "letter") [strRx "note", strRx "world"]]], .wb]

/-- `\b(can\'?t\s*take\s*(it|this)\s*(anymore)?|give\s*up|giving\s*up)\b` -/
def CRISIS_PATTERN_5 : Rx :=
  rseq [.wb, ralt
    (rseq [strRx "can", .opt (.lit apos), strRx "t", ws, strRx "take", ws,
           .alt (strRx "it") (strRx "this"), ws, .opt (strRx "anymore")])
    [rseq [strRx "give", ws, strRx "up"],
     rseq [strRx "giving", ws, strRx "up"]], .wb]

/-- `\b(hopeless|no\s*hope|lost\s*all\s*hope)\b` -/
def CRISIS_PATTERN_6 : Rx :=
  rseq [.wb, ralt
    (strRx "hopeless")
    [rseq [strRx "no", ws, strRx "hope"],
     rseq [strRx "lost", ws, strRx "all", ws, strRx "hope"]], .wb]

/-- `\b(being\s*(abused|beaten|hurt)|someone\s*is\s*hurting\s*me)\b` -/
def CRISIS_PATTERN_7 : Rx :=
  rseq [.wb, ralt
    (rseq [strRx "being", ws, ralt (strRx "abused") [strRx "beaten", strRx "hurt"]])
    [rseq [strRx "someone", ws, strRx "is", ws, strRx "hurting", ws, strRx "me"]], .wb]

/-- `\b(domestic\s*(violence|abuse)|my\s*(partner|spouse)\s*(hits|hurts|beats))\b` -/
def CRISIS_PATTERN_8 : Rx :=
  rseq [.wb, ralt
    (rseq [strRx "domestic", ws, .alt (strRx "violence") (strRx "abuse")])
    [rseq [strRx "my", ws, .alt (strRx "partner") (strRx "spouse"), ws,
           ralt (strRx "hits") [strRx "hurts", strRx "beats"]]], .wb]

/-- `COMPILED_PATTERNS` of `safety.py` (all compiled with `re.IGNORECASE`;
case-insensitivity is modelled by lowering the text before the search —
every pattern is already lower-case). -/
def COMPILED_PATTERNS : List Rx :=
  [CRISIS_PATTERN_1, CRISIS_PATTERN_2, CRISIS_PATTERN_3, CRISIS_PATTERN_4,
   CRISIS_PATTERN_5, CRISIS_PATTERN_6, CRISIS_PATTERN_7, CRISIS_PATTERN_8]

/-- Index of the first pattern in `ps` matching `text`, if any. -/
def firstMatch (ps : List Rx) (text : String) : Option Nat :=
  match ps with
  | [] => none
  | p :: rest =>
    if reSearch p text then some 0 else (firstMatch rest text).map (· + 1)

/-- `safety.detect_crisis`. -/
def detect_crisis (text : String) : Bool × Option String :=
  let text_lower := pyLower text
  match firstMatch COMPILED_PATTERNS text_lower with
  | some i =>
    if i < 4 then (true, some "self_harm")
    else if i < 6 then (true, some "severe_distress")
    else (true, some "abuse")
  | none => (false, none)

/-- `CRISIS_RESOURCES["default"]` of `safety.py`. -/
def CRISIS_RESOURCES_default : String :=
  "\n🆘 **IMPORTANT: You Are Not Alone**\n\nIf you're experiencing thoughts of self-harm or are in crisis, please reach out for help immediately:\n\n**United States:**\n- **National Suicide Prevention Lifeline:** 988 (call or text)\n- **Crisis Text Line:** Text HOME to 741741\n- **National Domestic Violence Hotline:** 1-800-799-7233\n\n**International:**\n- **International Association for Suicide Prevention:** https://www.iasp.info/resources/Crisis_Centres/\n- **Befrienders Worldwide:** https://www.befrienders.org/\n\n**Emergency:** If you're in immediate danger, please call your local emergency number (911 in the US).\n\n---\n\n*I am an AI offering spiritual guidance from sacred texts. While I'm here to listen and share wisdom, \nI am not a substitute for professional mental health support. Please reach out to the resources above—\ntrained humans are ready to help you through this moment.*\n\n---\n"

/-- `safety.get_crisis_response`. -/
def get_crisis_response (_crisis_type : Option String) : String :=
  CRISIS_RESOURCES_default

/-- `safety.get_theological_humility_reminder`. -/
def get_theological_humility_reminder : String :=
  "\n*A gentle reminder: I am a guide pointing toward ancient wisdom, not the source of that wisdom itself. \nThe sacred texts I draw from are profound, but my interpretations are those of an AI assistant. \nFor matters of deep spiritual importance, I encourage you to also seek counsel from trusted \nreligious leaders, spiritual directors, or your faith community.*\n"

/-- `safety.should_add_humility_reminder`. -/
def should_add_humility_reminder (message_count : Int) : Bool :=
  message_count > 0 && message_count % 10 == 0

/-- `\b(are\s*you\s*god|you\s*are\s*god|speaking\s*to\s*god)\b` -/
def DEITY_PATTERN_1 : Rx :=
  rseq [.wb, ralt
    (rseq [strRx "are", ws, strRx "you", ws, strRx "god"])
    [rseq [strRx "you", ws, strRx "are", ws, strRx "god"],
     rseq [strRx "speaking", ws, strRx "to", ws, strRx "god"]], .wb]

/-- `\b(lord,?\s*(please|help|hear)|dear\s*(god|lord|father))\b` -/
def DEITY_PATTERN_2 : Rx :=
  rseq [.wb, ralt
    (rseq [strRx "lord", .opt (.lit ','), ws,
           ralt (strRx "please") [strRx "help", strRx "hear"]])
    [rseq [strRx "dear", ws, ralt (strRx "god") [strRx "lord", strRx "father"]]], .wb]

/-- `\b(forgive\s*(me|my\s*sins)|absolve|bless\s*me)\b` -/
def DEITY_PATTERN_3 : Rx :=
  rseq [.wb, ralt
    (rseq [strRx "forgive", ws,
           .alt (strRx "me") (rseq [strRx "my", ws, strRx "sins"])])
    [strRx "absolve", rseq [strRx "bless", ws, strRx "me"]], .wb]

def COMPILED_DEITY_PATTERNS : List Rx :=
  [DEITY_PATTERN_1, DEITY_PATTERN_2, DEITY_PATTERN_3]

/-- `safety.detect_deity_treatment` (`re.IGNORECASE` modelled by lowering). -/
def detect_deity_treatment (text : String) : Bool :=
  COMPILED_DEITY_PATTERNS.any (fun p => reSearch p (pyLower text))

/-- `safety.get_deity_clarification`. -/
def get_deity_clarification : String :=
  "\n*I sense you may be speaking to me as you would to the Divine. I'm honored by your trust, \nbut I should be clear: I am an AI guide, not God or any divine being. I can share the \nwisdom found in sacred texts and offer a compassionate ear, but true prayer and communion \nwith the Divine is something far more profound than what I can provide. \n\nThat said, I am here to listen and to point you toward wisdom. Please, share what's on your heart.*\n"

/-! ## config.py -/

structure TraditionInfo where
  color : String
  icon : String
  scriptures : List String
  description : String
deriving Repr, DecidableEq

/-- `config.TRADITIONS` (an ordered dict; the icon strings are transcribed
byte-for-byte from the repository's `config.py`, whose icon values are
mojibake-encoded there). -/
def TRADITIONS : List (String × TraditionInfo) :=
  [("Christianity",
    ⟨"#C9A227", "‚úùÔ∏è", ["bible_kjv.txt", "bible_niv.txt", "bible_asv.txt"],
     "The Holy Bible - Old and New Testaments"⟩),
   ("Islam",
    ⟨"#2E7D32", "‚ò™Ô∏è", ["quran.txt"],
     "The Holy Quran - Words of Allah revealed to Prophet Muhammad"⟩),
   ("Hinduism",
    ⟨"#FF6F00", "üïâÔ∏è", ["bhagavad_gita.txt", "upanishads.txt", "ramayana.txt"],
     "Bhagavad Gita, Upanishads - Ancient wisdom of dharma"⟩),
   ("Buddhism",
    ⟨"#FFD54F", "‚ò∏Ô∏è", ["dhammapada.txt", "heart_sutra.txt", "buddhist_sutras.txt"],
     "Dhammapada, Sutras - Teachings of the Buddha"⟩),
   ("Taoism",
    ⟨"#424242", "‚òØÔ∏è", ["tao_te_ching.txt"],
     "Tao Te Ching - The way of harmony and balance"⟩),
   ("Judaism",
    ⟨"#1565C0", "‚ú°Ô∏è", ["torah.txt", "talmud_selections.txt"],
     "Torah, Talmud - The covenant and wisdom of Israel"⟩),
   ("Sikhism",
    ⟨"#FF8F00", "üôè", ["guru_granth_sahib.txt"],
     "Guru Granth Sahib - Teachings of the Sikh Gurus"⟩),
   ("Stoicism",
    ⟨"#5D4037", "üèõÔ∏è", ["meditations_aurelius.txt", "enchiridion.txt"],
     "Meditations, Enchiridion - Ancient philosophical wisdom"⟩),
   ("Confucianism",
    ⟨"#7B1FA2", "üìú", ["analects.txt"],
     "Analects - Teachings of Confucius on virtue and society"⟩)]

/-- `config.ADVISOR_NAME`. -/
def ADVISOR_NAME : String := "Divine Wisdom Guide"

/-- `config.ENABLE_CRISIS_DETECTION`. -/
def ENABLE_CRISIS_DETECTION : Bool := true

/-! ## build_index.py -/

/-- The record `get_tradition_for_file` returns. -/
structure TraditionTag where
  tradition : String
  icon : String
  scripture_name : String
deriving Repr, DecidableEq

/-- The fallback `patterns` table of `get_tradition_for_file`, in source
order: filename substring, then tradition, icon and scripture name. -/
def TRADITION_FILE_PATTERNS : List (String × String × String × String) :=
  [("bible", "Christianity", "✝️", "Bible"),
   ("quran", "Islam", "☪️", "Quran"),
   ("koran", "Islam", "☪️", "Quran"),
   ("gita", "Hinduism", "🕉️", "Bhagavad Gita"),
   ("upanishad", "Hinduism", "🕉️", "Upanishads"),
   ("veda", "Hinduism", "🕉️", "Vedas"),
   ("dhamma", "Buddhism", "☸️", "Dhammapada"),
   ("sutra", "Buddhism", "☸️", "Sutras"),
   ("buddha", "Buddhism", "☸️", "Buddhist Texts"),
   ("tao", "Taoism", "☯️", "Tao Te Ching"),
   ("torah", "Judaism", "✡️", "Torah"),
   ("talmud", "Judaism", "✡️", "Talmud"),
   ("guru", "Sikhism", "🙏", "Guru Granth Sahib"),
   ("granth", "Sikhism", "🙏", "Guru Granth Sahib")]

/-- The nested loop over `TRADITIONS.items()` and each `info['scriptures']`,
flattened in traversal order. -/
def traditionScripturePairs : List (String × String × String) :=
  TRADITIONS.flatMap (fun p => p.2.scriptures.map (fun s => (p.1, p.2.icon, s)))

/-- `build_index.get_tradition_for_file`. -/
def get_tradition_for_file (filename : String) : TraditionTag :=
  let filename_lower := pyLower filename
  match traditionScripturePairs.find?
      (fun t => pyContains filename_lower (pyLower t.2.2) ||
                pyContains (pyLower t.2.2) filename_lower) with
  | some (tradition_name, icon, scripture) =>
    ⟨tradition_name, icon, pyTitle (pyReplace (pyReplace scripture ".txt" "") "_" " ")⟩
  | none =>
    match TRADITION_FILE_PATTERNS.find? (fun t => pyContains filename_lower t.1) with
    | some (_, tradition, icon, name) => ⟨tradition, icon, name⟩
    | none =>
      ⟨"Other", "📖", pyTitle (pyReplace (pyReplace filename ".txt" "") "_" " ")⟩

/-- `re.sub(r'\n\x7b3,\x7d', '\n\n', ·)`: every run of three or more
newlines collapses to two.  `nl` counts the newlines already emitted in the
current run; from the third one on, newlines are dropped. -/
def collapseNLGo : Nat → List Char → List Char
  | _, [] => []
  | nl, '\n' :: rest =>
    if nl ≥ 2 then collapseNLGo nl rest else '\n' :: collapseNLGo (nl + 1) rest
  | _, c :: rest => c :: collapseNLGo 0 rest

def collapseNL (s : List Char) : List Char := collapseNLGo 0 s

/-- `build_index.clean_text`. -/
def clean_text (text : String) : String :=
  let text2 := String.mk (collapseNL text.data)
  pyJoin "\n" ((pySplitLines text2).map pyStrip)

/-- A langchain document: page content plus a string-keyed metadata dict,
modelled as an association list (first binding wins on lookup). -/
structure Doc where
  page_content : String
  metadata : List (String × String)
deriving Repr, DecidableEq

/-- `d.metadata.get(k)`-style lookup. -/
def mdGet (md : List (String × String)) (k : String) : Option String :=
  (md.find? (fun p => p.1 == k)).map (·.2)

/-- One key of `dict.update`: overwrite an existing binding, else append. -/
def mdSet (md : List (String × String)) (k v : String) : List (String × String) :=
  if md.any (fun p => p.1 == k) then
    md.map (fun p => if p.1 == k then (k, v) else p)
  else
    md ++ [(k, v)]

/-- The `metadata.update({...})` of `load_scriptures` for a file's tag. -/
def scriptureMetadata (md : List (String × String)) (tag : TraditionTag)
    (filename : String) : List (String × String) :=
  mdSet (mdSet (mdSet (mdSet (mdSet md
    "tradition" tag.tradition)
    "icon" tag.icon)
    "scripture_name" tag.scripture_name)
    "source_file" filename)
    "book_title" tag.scripture_name

/-- The outcome of `TextLoader(path, encoding=...).load()`: the loaded
documents, or the exception it raised. -/
def LoadResult := Except String (List Doc)

/-- The per-file body of `load_scriptures`: try utf-8, on failure try
latin-1, on failure `continue` (no documents); then clean the text of each
loaded document and tag its metadata. -/
def load_one_scripture (loadUtf8 loadLatin1 : String → LoadResult)
    (filename : String) : List Doc :=
  let file_docs : List Doc :=
    match loadUtf8 filename with
    | .ok ds => ds
    | .error _ =>
      match loadLatin1 filename with
      | .ok ds => ds
      | .error _ => []
  let tradition_info := get_tradition_for_file filename
  file_docs.map (fun d =>
    { page_content := clean_text d.page_content,
      metadata := scriptureMetadata d.metadata tradition_info filename })

/-- `build_index.load_scriptures`.  The file system is an oracle:
`raw_dir_exists` models `os.path.exists(RAW_DATA_DIR)`, `listing` the
`os.listdir(RAW_DATA_DIR)` result, and the two loaders the
`TextLoader.load` calls (utf-8 and the latin-1 retry). -/
def load_scriptures (raw_dir_exists : Bool) (listing : List String)
    (loadUtf8 loadLatin1 : String → LoadResult) : List Doc :=
  if !raw_dir_exists then []
  else
    let files := listing.filter (fun f => pyEndsWith (pyLower f) ".txt")
    files.flatMap (load_one_scripture loadUtf8 loadLatin1)

/-! ## The Gemini provider boundary

`agents.generate_agent_response` and `qa.generate_with_llm` both call
`_gemini_model.generate_content` inside a `try`/`except` and pick the text
out of the response object.  The provider is modelled as an oracle from the
full prompt to an outcome: either the exception the call raised or the
response object (whose relevant attributes are a list of candidates, each
with an optional content holding a list of parts with text). -/

structure GeminiPart where
  text : String
deriving Repr, DecidableEq

structure GeminiContent where
  parts : List GeminiPart
deriving Repr, DecidableEq

structure GeminiCandidate where
  content : Option GeminiContent
deriving Repr, DecidableEq

structure GeminiResponse where
  candidates : List GeminiCandidate
deriving Repr, DecidableEq

inductive ApiOutcome where
  | raises (e : String)
  | returns (r : GeminiResponse)
deriving Repr, DecidableEq

/-! ## agents.py -/

/-- `agents.generate_agent_response`, Gemini path.  `model_configured`
models `_gemini_model` being non-`None`; `api` models the
`generate_content` call on the full prompt. -/
def generate_agent_response_gemini (model_configured : Bool)
    (api : String → ApiOutcome) (prompt system_prompt : String) : String :=
  if !model_configured then "Error: Gemini API key not configured."
  else
    let full_prompt := system_prompt ++ "\n\n" ++ prompt
    match api full_prompt with
    | .raises _ => "Seeking wisdom..."
    | .returns response =>
      match response.candidates with
      | [] => "Wisdom guides us forward."
      | candidate :: _ =>
        match candidate.content with
        | none => "Wisdom guides us forward."
        | some content =>
          match content.parts with
          | [] => "Wisdom guides us forward."
          | part :: _ => part.text

/-- The arguments of one `generate_agent_response` call. -/
structure LLMCall where
  prompt : String
  system_prompt : String
  max_tokens : Nat
deriving Repr, DecidableEq

/-- `agents.generate_agent_response` at its call boundary: the provider
interaction (the Gemini body above, or the Ollama branch) is collapsed into
the oracle `api`, which maps the index of the call and its arguments to the
returned text; the log records every call made, in order. -/
def generate_agent_response (api : Nat → LLMCall → String) (log : List LLMCall)
    (prompt system_prompt : String) (max_tokens : Nat) : String × List LLMCall :=
  let call : LLMCall := ⟨prompt, system_prompt, max_tokens⟩
  (api log.length call, log ++ [call])

/-- `agents.COMPASSION_AGENT_PROMPT`. -/
def COMPASSION_AGENT_PROMPT : String :=
  "You are the Compassion Agent - a deeply empathetic spiritual counselor.\n\nYOUR ROLE:\n- Acknowledge and validate the seeker's emotions\n- Provide emotional grounding and comfort\n- Show that their feelings are understood and normal\n- Create a safe, non-judgmental space\n\nYOUR RESPONSE STYLE:\n- Warm, gentle, and nurturing\n- Use phrases like \"I sense...\", \"I understand...\", \"It's natural to feel...\"\n- Brief: 2-3 sentences maximum\n- Focus purely on emotional acknowledgment, not solutions\n\nDO NOT:\n- Quote scripture (that's another agent's job)\n- Give advice (that's another agent's job)\n- Be preachy or lecture"

/-- `agents.SCRIPTURE_AGENT_PROMPT` up to the `traditions` placeholder. -/
def SCRIPTURE_AGENT_PROMPT_pre : String :=
  "You are the Scripture Agent - a precise scholar of sacred texts.\n\nYOUR ROLE:\n- Find and cite relevant scripture passages\n- Ensure strict accuracy to the original texts\n- Provide exact references (book, chapter, verse when applicable)\n- Present passages that directly relate to the seeker's situation\n\nYOUR RESPONSE STYLE:\n- Scholarly and precise\n- Always cite sources: \"In [Scripture], it is written: '[quote]'\"\n- Brief: 1-2 relevant passages maximum\n- Present without interpretation (other agents interpret)\n\nAVAILABLE TRADITIONS:\n"

/-- `agents.SCRIPTURE_AGENT_PROMPT` after the `traditions` placeholder. -/
def SCRIPTURE_AGENT_PROMPT_post : String :=
  "\n\nDO NOT:\n- Interpret or explain the passages (Scholar Agent does that)\n- Give emotional support (Compassion Agent does that)\n- Give practical advice (Guidance Agent does that)"

/-- `SCRIPTURE_AGENT_PROMPT.format(traditions=...)`. -/
def SCRIPTURE_AGENT_PROMPT_format (traditions : String) : String :=
  SCRIPTURE_AGENT_PROMPT_pre ++ traditions ++ SCRIPTURE_AGENT_PROMPT_post

/-- `agents.SCHOLAR_AGENT_PROMPT`. -/
def SCHOLAR_AGENT_PROMPT : String :=
  "You are the Scholar Agent - a deep theologian and interpreter.\n\nYOUR ROLE:\n- Explain the theological meaning of the scriptures provided\n- Provide historical and cultural context\n- Connect ancient wisdom to modern understanding\n- Illuminate deeper spiritual truths\n\nYOUR RESPONSE STYLE:\n- Thoughtful and educational\n- Bridge ancient wisdom to present circumstances\n- Brief: 2-3 sentences of interpretation\n- Make complex theology accessible\n\nDO NOT:\n- Quote scripture (Scripture Agent did that)\n- Provide emotional support (Compassion Agent did that)\n- Give specific life advice (Guidance Agent does that)"

/-- `agents.GUIDANCE_AGENT_PROMPT`. -/
def GUIDANCE_AGENT_PROMPT : String :=
  "You are the Guidance Agent - a practical spiritual advisor.\n\nYOUR ROLE:\n- Translate wisdom into actionable steps\n- Provide practical, real-world advice\n- Suggest specific practices or actions\n- Give hope and direction\n\nYOUR RESPONSE STYLE:\n- Practical and empowering\n- Use phrases like \"You might consider...\", \"One practice that may help...\"\n- Brief: 2-3 specific suggestions\n- End with encouragement\n\nDO NOT:\n- Quote scripture (Scripture Agent did that)\n- Explain theology (Scholar Agent did that)  \n- Focus on emotions (Compassion Agent did that)"

/-- `agents.SYNTHESIZER_PROMPT`. -/
def SYNTHESIZER_PROMPT : String :=
  "You are the Divine Wisdom Guide synthesizer.\n\nYou have received insights from 4 specialized spiritual agents:\n1. COMPASSION - emotional support\n2. SCRIPTURE - relevant sacred texts\n3. SCHOLAR - theological interpretation  \n4. GUIDANCE - practical advice\n\nYOUR TASK:\nWeave these perspectives into ONE unified, flowing response that feels like it comes from a single wise advisor. \n\nRULES:\n- Create natural transitions between perspectives\n- Don't label sections or mention the agents\n- Maintain a warm, wise tone throughout\n- Keep the response focused and not too long\n- Preserve scripture citations naturally inline\n- End with hope and encouragement\n\nCreate a response that feels like speaking with one deeply wise spiritual guide, not four separate voices."

/-- The user prompt `run_compassion_agent` builds (its inner f-string is
empty when `context` is empty, i.e. falsy). -/
def compassionPrompt (question context : String) : String :=
  "Question from seeker: " ++ question ++ "\n\n" ++
    (if context != "" then "Context from their history: " ++ context else "") ++
    "\n\nProvide brief emotional acknowledgment and grounding (2-3 sentences):"

/-- `agents.run_compassion_agent`. -/
def run_compassion_agent (api : Nat → LLMCall → String) (log : List LLMCall)
    (question : String) (context : String := "") : String × List LLMCall :=
  let r := generate_agent_response api log (compassionPrompt question context)
    COMPASSION_AGENT_PROMPT 200
  (pyStrip r.1, r.2)

/-- `", ".join(traditions) if traditions else ", ".join(TRADITIONS.keys())`:
`None` and the empty list are both falsy. -/
def traditionsStr (traditions : Option (List String)) : String :=
  match traditions with
  | some (t :: ts) => pyJoin ", " (t :: ts)
  | _ => pyJoin ", " (TRADITIONS.map (·.1))

/-- The user prompt `run_scripture_agent` builds. -/
def scripturePrompt (question scripture_context : String) : String :=
  "Question from seeker: " ++ question ++
    "\n\nRelevant scripture passages found:\n" ++ scripture_context ++
    "\n\nSelect and cite the most relevant passage(s) with exact references:"

/-- `agents.run_scripture_agent`. -/
def run_scripture_agent (api : Nat → LLMCall → String) (log : List LLMCall)
    (question scripture_context : String) (traditions : Option (List String)) :
    String × List LLMCall :=
  let system_prompt := SCRIPTURE_AGENT_PROMPT_format (traditionsStr traditions)
  let r := generate_agent_response api log (scripturePrompt question scripture_context)
    system_prompt 300
  (pyStrip r.1, r.2)

/-- The user prompt `run_scholar_agent` builds. -/
def scholarPrompt (question scripture_citation : String) : String :=
  "Question from seeker: " ++ question ++ "\n\nScripture cited:\n" ++
    scripture_citation ++ "\n\nProvide theological interpretation and context (2-3 sentences):"

/-- `agents.run_scholar_agent`. -/
def run_scholar_agent (api : Nat → LLMCall → String) (log : List LLMCall)
    (question scripture_citation : String) : String × List LLMCall :=
  let r := generate_agent_response api log (scholarPrompt question scripture_citation)
    SCHOLAR_AGENT_PROMPT 300
  (pyStrip r.1, r.2)

/-- The user prompt `run_guidance_agent` builds. -/
def guidancePrompt (question all_context : String) : String :=
  "Question from seeker: " ++ question ++ "\n\nWisdom shared so far:\n" ++
    all_context ++ "\n\nProvide 2-3 practical, actionable suggestions:"

/-- `agents.run_guidance_agent`. -/
def run_guidance_agent (api : Nat → LLMCall → String) (log : List LLMCall)
    (question all_context : String) : String × List LLMCall :=
  let r := generate_agent_response api log (guidancePrompt question all_context)
    GUIDANCE_AGENT_PROMPT 300
  (pyStrip r.1, r.2)

/-- The user prompt `synthesize_responses` builds. -/
def synthesizerPrompt (question compassion scripture scholar guidance : String) : String :=
  "SEEKER'S QUESTION:\n" ++ question ++
    "\n\nCOMPASSION AGENT (emotional support):\n" ++ compassion ++
    "\n\nSCRIPTURE AGENT (sacred texts):\n" ++ scripture ++
    "\n\nSCHOLAR AGENT (interpretation):\n" ++ scholar ++
    "\n\nGUIDANCE AGENT (practical advice):\n" ++ guidance ++
    "\n\n---\nNow synthesize these into ONE unified, flowing response from a wise spiritual advisor:"

/-- `agents.synthesize_responses`. -/
def synthesize_responses (api : Nat → LLMCall → String) (log : List LLMCall)
    (question compassion scripture scholar guidance : String) : String × List LLMCall :=
  let r := generate_agent_response api log
    (synthesizerPrompt question compassion scripture scholar guidance)
    SYNTHESIZER_PROMPT 600
  (pyStrip r.1, r.2)

/-- The `agent_outputs` dict `multi_agent_guidance` returns: its keys are
exactly `compassion`, `scripture`, `scholar` and `guidance`. -/
structure AgentOutputs where
  compassion : String
  scripture : String
  scholar : String
  guidance : String
deriving Repr, DecidableEq

/-- `agents.multi_agent_guidance`. -/
def multi_agent_guidance (api : Nat → LLMCall → String) (log : List LLMCall)
    (question scripture_context : String) (traditions : Option (List String))
    (user_context : String := "") : (String × AgentOutputs) × List LLMCall :=
  let c := run_compassion_agent api log question user_context
  let s := run_scripture_agent api c.2 question scripture_context traditions
  let sch := run_scholar_agent api s.2 question s.1
  let combined_context := c.1 ++ "\n\n" ++ s.1 ++ "\n\n" ++ sch.1
  let g := run_guidance_agent api sch.2 question combined_context
  let fin := synthesize_responses api g.2 question c.1 s.1 sch.1 g.1
  ((fin.1, ⟨c.1, s.1, sch.1, g.1⟩), fin.2)

/-! ## qa.py -/

/-- `qa.generate_with_llm`, Gemini path.  Unlike the agents variant, it
concatenates the text of all parts of the first candidate. -/
def generate_with_llm_gemini (model_configured : Bool) (api : String → ApiOutcome)
    (prompt : String) (system_prompt : Option String) : String :=
  if !model_configured then "Error: Gemini API key not configured."
  else
    let full_prompt :=
      match system_prompt with
      | some sp => sp ++ "\n\n" ++ prompt
      | none => prompt
    match api full_prompt with
    | .raises _ => "I'm here to offer spiritual guidance. Could you please rephrase your question?"
    | .returns response =>
      let fallback := "I sense your question touches on deep spiritual matters. The wisdom traditions teach us to approach life with patience and compassion. Please share more about what guidance you seek."
      match response.candidates with
      | [] => fallback
      | candidate :: _ =>
        match candidate.content with
        | none => fallback
        | some content =>
          match content.parts with
          | [] => fallback
          | parts@(_ :: _) => String.join (parts.map (·.text))

/-- The arguments of one `qa.generate_with_llm` call. -/
structure QACall where
  prompt : String
  system_prompt : Option String
  max_tokens : Nat
deriving Repr, DecidableEq

/-- `qa.generate_with_llm` at its call boundary (provider collapsed into the
oracle `api`, calls logged in order). -/
def generate_with_llm (api : Nat → QACall → String) (log : List QACall)
    (prompt : String) (system_prompt : Option String := none)
    (max_tokens : Nat := 2048) : String × List QACall :=
  let call : QACall := ⟨prompt, system_prompt, max_tokens⟩
  (api log.length call, log ++ [call])

/-- The metadata filter `retrieve` may pass to `similarity_search`:
either a single tradition or a `$in` list. -/
inductive ChromaFilter where
  | tradition (t : String)
  | traditionIn (ts : List String)
deriving Repr, DecidableEq

/-- The arguments of one `similarity_search` call on the vector store. -/
structure SearchCall where
  query : String
  k : Nat
  filter : Option ChromaFilter
deriving Repr, DecidableEq

/-- The vector store's `similarity_search` at its call boundary: the store is
the oracle `search`, calls are logged in order. -/
def similarity_search (search : Nat → SearchCall → List Doc) (log : List SearchCall)
    (query : String) (k : Nat) (filter : Option ChromaFilter) :
    List Doc × List SearchCall :=
  let call : SearchCall := ⟨query, k, filter⟩
  (search log.length call, log ++ [call])

/-- `qa.retrieve`.  `traditions and len(traditions) > 0` is the cons case of
the optional list; `traditions[0]` is its head. -/
def retrieve (search : Nat → SearchCall → List Doc) (log : List SearchCall)
    (question : String) (traditions : Option (List String)) (k : Nat := 6) :
    List Doc × List SearchCall :=
  match traditions with
  | some (t :: ts) =>
    if !((t :: ts).contains "All Traditions") then
      if (t :: ts).length == 1 then
        similarity_search search log question k (some (.tradition t))
      else
        similarity_search search log question k (some (.traditionIn (t :: ts)))
    else
      similarity_search search log question k none
  | _ => similarity_search search log question k none

/-- Truncation used by `context_to_text` and the history builder:
`s[:n] + "..." if len(s) > n else s`. -/
def truncDots (s : String) (n : Nat) : String :=
  if s.length > n then pyTake s n ++ "..." else s

/-- `qa.context_to_text`. -/
def context_to_text (docs : List Doc) (max_chars_per_doc : Nat := 400) : String :=
  let blocks := docs.enum.map (fun p =>
    let i := p.1 + 1
    let d := p.2
    let tradition := (mdGet d.metadata "tradition").getD "Unknown"
    let scripture := (mdGet d.metadata "scripture_name").getD
      ((mdGet d.metadata "book_title").getD "Unknown")
    let content := truncDots (pyStrip d.page_content) max_chars_per_doc
    "[" ++ toString i ++ "] " ++ tradition ++ " - " ++ scripture ++ "\n" ++ content)
  pyJoin "\n\n" blocks

/-- `qa.get_advisor_system_prompt`. -/
def get_advisor_system_prompt (traditions_used : List String)
    (mode : String := "standard") : String :=
  let traditions_str :=
    match traditions_used with
    | [] => "multiple spiritual traditions"
    | t :: ts => pyJoin ", " (t :: ts)
  let base_prompt :=
    "You are " ++ ADVISOR_NAME ++ ", a compassionate and wise spiritual counselor who draws upon \nthe sacred wisdom of " ++ traditions_str ++ " to guide seekers on their life journey.\n\nYOUR ROLE:\n- You are NOT just a knowledge base. You are a caring advisor who helps people with real-life challenges.\n- People come to you with questions about their lives: relationships, career, purpose, suffering, \n  moral dilemmas, grief, hope, and the search for meaning.\n- You listen deeply, offer comfort, and provide guidance rooted in timeless spiritual wisdom.\n\nYOUR VOICE:\n- Speak with warmth, wisdom, and gentle authority\n- Use metaphors and stories when they help illuminate truth\n- Be respectful of all traditions - find common threads of wisdom\n- Never be preachy or judgmental\n- Acknowledge when questions touch on mystery beyond human understanding\n- Balance the transcendent with the practical\n\nIMPORTANT: You are a guide pointing toward ancient wisdom, not a deity. Be humble about your nature as an AI."
  if mode == "prayer" then
    base_prompt ++ "\n\nPRAYER MODE: The seeker has entered a contemplative space. Keep your responses brief, \ngentle, and poetic. Focus on comfort and presence rather than detailed analysis. \nSpeak as one might in a quiet sanctuary."
  else if mode == "journal" then
    base_prompt ++ "\n\nJOURNAL MODE: The seeker is sharing personal reflections. Your role is to:\n- Mirror back what you hear in their words\n- Notice themes and patterns gently\n- Suggest relevant wisdom without overwhelming\n- Encourage continued reflection\n- Be a compassionate witness, not a problem-solver"
  else if mode == "meditation" then
    base_prompt ++ "\n\nMEDITATION MODE: Generate calming, guided meditation scripts. Include:\n- A centering breath exercise\n- Visualization based on the seeker's needs\n- References to relevant spiritual wisdom\n- A gentle return to awareness\n- Keep the tone slow, spacious, and peaceful"
  else
    base_prompt

/-- The conversation-history block of `ask_question`: the last two turns,
question truncated to 150 characters and answer to 200, joined by blank
lines (empty when there is no history). -/
def historyText (conversation_history : Option (List (String × String))) : String :=
  match conversation_history with
  | some (x :: xs) =>
    let recent := (x :: xs).drop ((x :: xs).length - 2)
    pyJoin "\n\n" (recent.map (fun p =>
      "Seeker: " ++ truncDots p.1 150 ++ "\nAdvisor: " ++ truncDots p.2 200))
  | _ => ""

/-- The mode-specific user prompt of `ask_question`. -/
def askQuestionUserPrompt (mode context memory_context history_text question : String) :
    String :=
  if mode == "journal" then
    "SACRED WISDOM (for reference):\n" ++ context ++ "\n\n" ++ memory_context ++
      "\n\nSEEKER'S JOURNAL ENTRY:\n" ++ question ++
      "\n\nReflect back what you notice in their words. Highlight themes gently. \nSuggest one piece of wisdom that resonates with their reflection.\nKeep your response warm and supportive."
  else if mode == "meditation" then
    "SACRED WISDOM (for inspiration):\n" ++ context ++ "\n\n" ++ memory_context ++
      "\n\nSEEKER'S NEED:\n" ++ question ++
      "\n\nCreate a 3-5 minute guided meditation script that:\n1. Begins with centering breaths\n2. Uses imagery and wisdom from the passages above\n3. Addresses their specific need\n4. Ends with gentle return to awareness\n\nWrite in second person (\"You are...\"), with [PAUSE] markers for silence."
  else
    "SACRED WISDOM (from scriptures):\n" ++ context ++ "\n\n" ++ memory_context ++
      "\n\n" ++
      (if history_text != "" then "PREVIOUS CONVERSATION:\n" ++ history_text else "") ++
      "\n\nSEEKER'S QUESTION:\n" ++ question ++
      "\n\nProvide guidance that:\n- Addresses their specific situation with empathy\n- Draws relevant wisdom from the scripture passages above\n- Offers practical direction they can apply to their life\n- Leaves them with hope and clarity\n\n" ++
      (if mode == "prayer" then "Keep your response brief and poetic." else "") ++
      "\n\nYour guidance:"

/-- `qa.ask_question`.  Oracles: `search` is the vector store, `llm` the
configured LLM provider (both with call logs), and `memCtx` is
`memory.get_context_for_llm`, which performs its own database I/O and is
therefore a collaborator function; `Memory` is its abstract input type.
`list(set(...))` over the retrieved traditions has unspecified order and is
modelled by `List.dedup`.  Returns `(response, docs, is_crisis)` together
with the final call logs. -/
def ask_question {Memory : Type}
    (search : Nat → SearchCall → List Doc) (slog : List SearchCall)
    (llm : Nat → QACall → String) (llog : List QACall)
    (memCtx : Memory → String)
    (question : String) (traditions : Option (List String) := none)
    (conversation_history : Option (List (String × String)) := none)
    (user_memory : Option Memory := none) (mode : String := "standard")
    (message_count : Int := 0) :
    (String × List Doc × Bool) × List SearchCall × List QACall :=
  if ENABLE_CRISIS_DETECTION && (detect_crisis question).1 then
    ((get_crisis_response (detect_crisis question).2, [], true), slog, llog)
  else
    let clarification := if detect_deity_treatment question then get_deity_clarification else ""
    let retrieved := retrieve search slog question traditions 6
    let docs := retrieved.1
    let context := context_to_text docs 400
    let traditions_in_context :=
      (docs.map (fun d => (mdGet d.metadata "tradition").getD "Unknown")).dedup
    let system_prompt := get_advisor_system_prompt traditions_in_context mode
    let memory_context := match user_memory with | some m => memCtx m | none => ""
    let history_text := historyText conversation_history
    let user_prompt := askQuestionUserPrompt mode context memory_context history_text question
    let generated := generate_with_llm llm llog user_prompt (some system_prompt) 2048
    let response1 :=
      if clarification != "" then clarification ++ "\n\n---\n\n" ++ generated.1
      else generated.1
    let response2 :=
      if should_add_humility_reminder message_count then
        response1 ++ "\n\n---\n" ++ get_theological_humility_reminder
      else response1
    ((response2, docs, false), retrieved.2, generated.2)

/-! ## community.py

Profiles are dicts in Python; here they are a structure whose fields carry
the defaults the code reads them with (`profile.get("traits", dict())` etc.).
The `opt_in` entry's truthiness is the Bool field.  Python `set`s over the
trait lists are modelled by `dedup` / `filter`; a set's iteration order is
unspecified in Python and is modelled by first-occurrence order.  Scores are
Python floats computed from small integer ratios, modelled exactly in `ℚ`. -/

structure ConnectionRequest where
  from_email : String
  from_name : String
  message : String
  sent_at : String
deriving Repr, DecidableEq

/-- The trait dict: `TRAIT_CATEGORIES`-keyed lists, absent keys read as `[]`. -/
structure Traits where
  life_stage : List String := []
  spiritual_journey : List String := []
  primary_interests : List String := []
  seeking_support_for : List String := []
  preferred_traditions : List String := []
  connection_style : List String := []
deriving Repr, DecidableEq

/-- `traits.get(category, [])`. -/
def traitsGet (t : Traits) (category : String) : List String :=
  if category == "life_stage" then t.life_stage
  else if category == "spiritual_journey" then t.spiritual_journey
  else if category == "primary_interests" then t.primary_interests
  else if category == "seeking_support_for" then t.seeking_support_for
  else if category == "preferred_traditions" then t.preferred_traditions
  else if category == "connection_style" then t.connection_style
  else []

structure Profile where
  email : String
  display_name : String
  bio : String
  traits : Traits
  preferred_traditions : List String
  opt_in : Bool
  created_at : String
  updated_at : String
  last_active : String
  connections : List String
  connection_requests : List ConnectionRequest
deriving Repr, DecidableEq

/-- `set(l)` as a list (first occurrences). -/
def pySet (l : List String) : List String := l.dedup

/-- `setA & setB` for deduplicated lists. -/
def pyInter (s1 s2 : List String) : List String :=
  s1.filter (fun x => s2.contains x)

/-- Python `repr` of a list of strings, used in the `traditions:` trait tag. -/
def pyListRepr (l : List String) : String :=
  "[" ++ pyJoin ", " (l.map (fun s => "'" ++ s ++ "'")) ++ "]"

/-- The `weights` dict of `calculate_compatibility_score`, in source order. -/
def COMPAT_WEIGHTS : List (String × ℚ) :=
  [("seeking_support_for", 30), ("preferred_traditions", 25),
   ("spiritual_journey", 20), ("primary_interests", 15), ("connection_style", 10)]

/-- The body of the `for category, weight` loop of
`calculate_compatibility_score`: one category's contribution to the
accumulated score and matching-trait list. -/
def compatStep (profile1 profile2 : Profile) (acc : ℚ × List String)
    (cw : String × ℚ) : ℚ × List String :=
  let set1 := pySet (traitsGet profile1.traits cw.1)
  let set2 := pySet (traitsGet profile2.traits cw.1)
  if !set1.isEmpty && !set2.isEmpty then
    let overlap := pyInter set1 set2
    if !overlap.isEmpty then
      (acc.1 + cw.2 * (overlap.length : ℚ) / (max set1.length set2.length : ℚ),
       acc.2 ++ overlap.map (fun t => cw.1 ++ ":" ++ t))
    else acc
  else acc

/-- `community.calculate_compatibility_score`. -/
def calculate_compatibility_score (profile1 profile2 : Profile) : ℚ × List String :=
  if !profile1.opt_in || !profile2.opt_in then (0, [])
  else
    let r := COMPAT_WEIGHTS.foldl (compatStep profile1 profile2) (0, [])
    let trad1 := pySet profile1.preferred_traditions
    let trad2 := pySet profile2.preferred_traditions
    let overlap := pyInter trad1 trad2
    let r2 :=
      if !overlap.isEmpty then
        (r.1 + 10, r.2 ++ ["traditions:" ++ pyListRepr overlap])
      else r
    (min 100 r2.1, r2.2)

/-! ### File-based storage

The profiles directory is a list of `(filename, stored profile)` pairs:
`os.listdir` yields the names in list order, `open`/`json.load` reads the
named entry, `json.dump` overwrites it or appends a new one.  A JSON
round-trip of a profile dict is the identity, so files store profiles
directly.  The md5 used in `_get_profile_path` is the oracle `hash`. -/

def readProfileFile (dir : List (String × Profile)) (name : String) : Option Profile :=
  (dir.find? (fun e => e.1 == name)).map (·.2)

def writeProfileFile (dir : List (String × Profile)) (name : String) (p : Profile) :
    List (String × Profile) :=
  if dir.any (fun e => e.1 == name) then
    dir.map (fun e => if e.1 == name then (name, p) else e)
  else
    dir ++ [(name, p)]

/-- `community._get_profile_path` (the directory prefix is dropped; `hash`
models `hashlib.md5(...).hexdigest()`). -/
def _get_profile_path (hash : String → String) (user_email : String) : String :=
  hash (pyLower user_email) ++ ".json"

/-- `x or default` for an optional string argument (`None` and `""` falsy). -/
def pyOrStr (x : Option String) (d : String) : String :=
  match x with
  | some s => if s != "" then s else d
  | none => d

/-- `x or default` for an optional list argument (`None` and `[]` falsy). -/
def pyOrList (x : Option (List String)) (d : List String) : List String :=
  match x with
  | some (a :: l) => a :: l
  | _ => d

/-- `x or default` for the optional traits argument (`None` and the empty
dict falsy; the empty dict is the all-default structure). -/
def pyOrTraits (x : Option Traits) (d : Traits) : Traits :=
  match x with
  | some t => if t ≠ ({} : Traits) then t else d
  | none => d

/-- `community._create_or_update_profile_file_based`.  `now` models
`datetime.now().isoformat()`.  Returns the written profile and the updated
directory. -/
def _create_or_update_profile_file_based (dir : List (String × Profile))
    (hash : String → String) (user_email display_name : String)
    (bio : Option String := none) (traits : Option Traits := none)
    (preferred_traditions : Option (List String) := none) (opt_in : Bool := true)
    (now : String := "") : Profile × List (String × Profile) :=
  let profile_path := _get_profile_path hash user_email
  let existing := readProfileFile dir profile_path
  let profile : Profile :=
    { email := pyLower user_email,
      display_name := display_name,
      bio := pyOrStr bio ((existing.map (·.bio)).getD ""),
      traits := pyOrTraits traits ((existing.map (·.traits)).getD {}),
      preferred_traditions :=
        pyOrList preferred_traditions ((existing.map (·.preferred_traditions)).getD []),
      opt_in := opt_in,
      created_at := (existing.map (·.created_at)).getD now,
      updated_at := now,
      last_active := now,
      connections := (existing.map (·.connections)).getD [],
      connection_requests := (existing.map (·.connection_requests)).getD [] }
  (profile, writeProfileFile dir profile_path profile)

/-- `community._get_profile_file_based`. -/
def _get_profile_file_based (dir : List (String × Profile))
    (hash : String → String) (user_email : String) : Option Profile :=
  readProfileFile dir (_get_profile_path hash user_email)

/-- Python `round` (half to even) on an exact rational. -/
def pythonRound (q : ℚ) : Int :=
  let f := ⌊q⌋
  let r := q - f
  if r < 1/2 then f
  else if r > 1/2 then f + 1
  else if f % 2 = 0 then f else f + 1

/-- One entry of the list `find_matches` returns. -/
structure MatchEntry where
  email : String
  display_name : String
  bio : String
  compatibility_score : Int
  matching_traits : List String
  preferred_traditions : List String
  last_active : String
deriving Repr, DecidableEq

/-- The match entry built for one other profile, when its score clears the
threshold. -/
def matchEntryFor (user_profile other : Profile) : Option MatchEntry :=
  let sc := calculate_compatibility_score user_profile other
  if sc.1 ≥ 20 then
    some { email := other.email,
           display_name := other.display_name,
           bio := pyTake other.bio 100,
           compatibility_score := pythonRound sc.1,
           matching_traits := sc.2.take 5,
           preferred_traditions := other.preferred_traditions,
           last_active := other.last_active }
  else none

/-- `community._find_matches_file_based`. -/
def _find_matches_file_based (dir : List (String × Profile))
    (hash : String → String) (user_email : String) (limit : Nat := 10) :
    List MatchEntry :=
  match _get_profile_file_based dir hash user_email with
  | none => []
  | some user_profile =>
    if !user_profile.opt_in then []
    else
      let json_profiles := (dir.filter (fun e => pyEndsWith e.1 ".json")).map (·.2)
      let considered := json_profiles.filter (fun other =>
        other.email != pyLower user_email && other.opt_in)
      let scored := considered.filterMap (matchEntryFor user_profile)
      let sorted := scored.mergeSort
        (fun a b => decide (b.compatibility_score ≤ a.compatibility_score))
      sorted.take limit

/-- `community.find_matches` with `USE_SUPABASE` false: `get_profile`
delegates to `_get_profile_file_based`, then matching is file-based. -/
def find_matches (dir : List (String × Profile)) (hash : String → String)
    (user_email : String) (limit : Nat := 10) : List MatchEntry :=
  match _get_profile_file_based dir hash user_email with
  | none => []
  | some user_profile =>
    if !user_profile.opt_in then []
    else _find_matches_file_based dir hash user_email limit

/-! ## Specification-side definitions

These follow the wording of the spec's claims (for refinement statements);
the definitions above follow the source. -/

/-- The filter the spec says `retrieve` passes: `(tradition: t)` for a
one-element list, `(tradition: $in ts)` for a longer one, exactly when the
traditions argument is a non-empty list not containing `"All Traditions"`;
otherwise no filter. -/
def retrieveFilterSpec (traditions : Option (List String)) : Option ChromaFilter :=
  match traditions with
  | none => none
  | some ts =>
    if ts ≠ [] ∧ "All Traditions" ∉ ts then
      if ts.length = 1 then some (.tradition (ts.headD "")) else some (.traditionIn ts)
    else none

/-- One category's contribution as the spec states it: weight times
`|set1 ∩ set2| / max(|set1|, |set2|)` when both category sets are non-empty
and overlap, else nothing. -/
def specCategoryTerm (w : ℚ) (l1 l2 : List String) : ℚ :=
  if pySet l1 ≠ [] ∧ pySet l2 ≠ [] ∧ pyInter (pySet l1) (pySet l2) ≠ [] then
    w * ((pyInter (pySet l1) (pySet l2)).length : ℚ) /
      (max (pySet l1).length (pySet l2).length : ℚ)
  else 0

/-- The spec's formula for the compatibility score: 0 when either profile
has not opted in, else `min(100, S)` with `S` the weighted sum over the five
categories plus a bonus of 10 when the top-level preferred-traditions lists
intersect. -/
def compatScoreSpec (p1 p2 : Profile) : ℚ :=
  if !p1.opt_in || !p2.opt_in then 0
  else
    min 100
      (specCategoryTerm 30 (traitsGet p1.traits "seeking_support_for")
          (traitsGet p2.traits "seeking_support_for")
        + specCategoryTerm 25 (traitsGet p1.traits "preferred_traditions")
          (traitsGet p2.traits "preferred_traditions")
        + specCategoryTerm 20 (traitsGet p1.traits "spiritual_journey")
          (traitsGet p2.traits "spiritual_journey")
        + specCategoryTerm 15 (traitsGet p1.traits "primary_interests")
          (traitsGet p2.traits "primary_interests")
        + specCategoryTerm 10 (traitsGet p1.traits "connection_style")
          (traitsGet p2.traits "connection_style")
        + (if pyInter (pySet p1.preferred_traditions) (pySet p2.preferred_traditions) ≠ [] then 10 else 0))

/-! ## Theorems -/

/-- C1: `multi_agent_guidance` is a fixed four-stage pipeline making exactly
five provider calls in the order compassion, scripture, scholar, guidance,
synthesis: the scholar call's prompt is built from the scripture stage's
output, the guidance call's prompt from the concatenation of the compassion,
scripture and scholar outputs, the returned final response is the stripped
synthesis call over all four outputs and the question, and the returned
outputs record holds exactly those four agent outputs. -/
theorem multi_agent_guidance_pipeline (api : Nat → LLMCall → String)
    (question scripture_context user_context : String)
    (traditions : Option (List String)) :
    (let call1 : LLMCall := ⟨compassionPrompt question user_context, COMPASSION_AGENT_PROMPT, 200⟩
     let compassion := pyStrip (api 0 call1)
     let call2 : LLMCall := ⟨scripturePrompt question scripture_context,
       SCRIPTURE_AGENT_PROMPT_format (traditionsStr traditions), 300⟩
     let scripture := pyStrip (api 1 call2)
     let call3 : LLMCall := ⟨scholarPrompt question scripture, SCHOLAR_AGENT_PROMPT, 300⟩
     let scholar := pyStrip (api 2 call3)
     let call4 : LLMCall := ⟨guidancePrompt question
       (compassion ++ "\n\n" ++ scripture ++ "\n\n" ++ scholar), GUIDANCE_AGENT_PROMPT, 300⟩
     let guidance := pyStrip (api 3 call4)
     let call5 : LLMCall := ⟨synthesizerPrompt question compassion scripture scholar guidance,
       SYNTHESIZER_PROMPT, 600⟩
     multi_agent_guidance api [] question scripture_context traditions user_context =
       ((pyStrip (api 4 call5), ⟨compassion, scripture, scholar, guidance⟩),
        [call1, call2, call3, call4, call5])) := rfl

/-- C6: each agent is a fixed prompt template plus exactly one LLM call —
from any starting log it appends exactly one call, whose system prompt is
the agent's fixed template filled with the input, and returns the stripped
provider text. -/
theorem agents_single_call_template (api : Nat → LLMCall → String) (log : List LLMCall)
    (question context scripture_context scripture_citation all_context : String)
    (traditions : Option (List String)) :
    run_compassion_agent api log question context =
      (pyStrip (api log.length ⟨compassionPrompt question context, COMPASSION_AGENT_PROMPT, 200⟩),
       log ++ [⟨compassionPrompt question context, COMPASSION_AGENT_PROMPT, 200⟩]) ∧
    run_scripture_agent api log question scripture_context traditions =
      (pyStrip (api log.length ⟨scripturePrompt question scripture_context,
         SCRIPTURE_AGENT_PROMPT_format (traditionsStr traditions), 300⟩),
       log ++ [⟨scripturePrompt question scripture_context,
         SCRIPTURE_AGENT_PROMPT_format (traditionsStr traditions), 300⟩]) ∧
    run_scholar_agent api log question scripture_citation =
      (pyStrip (api log.length ⟨scholarPrompt question scripture_citation, SCHOLAR_AGENT_PROMPT, 300⟩),
       log ++ [⟨scholarPrompt question scripture_citation, SCHOLAR_AGENT_PROMPT, 300⟩]) ∧
    run_guidance_agent api log question all_context =
      (pyStrip (api log.length ⟨guidancePrompt question all_context, GUIDANCE_AGENT_PROMPT, 300⟩),
       log ++ [⟨guidancePrompt question all_context, GUIDANCE_AGENT_PROMPT, 300⟩]) :=
  ⟨rfl, rfl, rfl, rfl⟩

/-- C3: when the provider call raises, the Gemini paths of
`agents.generate_agent_response` and `qa.generate_with_llm` catch the
exception and return their fixed non-empty fallback strings.  (Both
embeddings are total Lean functions: no input makes them propagate an
exception.) -/
theorem llm_error_fallback (api : String → ApiOutcome) (prompt system_prompt : String)
    (sp : Option String) :
    (∀ e, api (system_prompt ++ "\n\n" ++ prompt) = .raises e →
      generate_agent_response_gemini true api prompt system_prompt = "Seeking wisdom...") ∧
    (∀ e, api (match sp with | some s => s ++ "\n\n" ++ prompt | none => prompt) = .raises e →
      generate_with_llm_gemini true api prompt sp =
        "I'm here to offer spiritual guidance. Could you please rephrase your question?") ∧
    ("Seeking wisdom..." ≠ "") ∧
    ("I'm here to offer spiritual guidance. Could you please rephrase your question?" ≠ "") := by
  refine ⟨fun e h => ?_, fun e h => ?_, by decide, by decide⟩
  · unfold generate_agent_response_gemini
    simp only [Bool.not_true, Bool.false_eq_true, if_false, h]
  · unfold generate_with_llm_gemini
    cases sp with
    | some s => simp only [Bool.not_true, Bool.false_eq_true, if_false] at h ⊢; rw [h]
    | none => simp only [Bool.not_true, Bool.false_eq_true, if_false] at h ⊢; rw [h]

/-- C3 witness: a concrete always-raising provider makes both functions
return their fallback strings. -/
theorem llm_error_fallback_witness :
    generate_agent_response_gemini true (fun _ => .raises "boom") "p" "s" = "Seeking wisdom..." ∧
    generate_with_llm_gemini true (fun _ => .raises "boom") "p" none =
      "I'm here to offer spiritual guidance. Could you please rephrase your question?" :=
  ⟨(llm_error_fallback (fun _ => .raises "boom") "p" "s" none).1 "boom" rfl,
   (llm_error_fallback (fun _ => .raises "boom") "p" "s" none).2.1 "boom" rfl⟩

/-- C4: `retrieve` makes exactly one `similarity_search` call, requesting
exactly `k` results, with the tradition filter (single or `$in`) precisely
when the traditions argument is a non-empty list not containing
`"All Traditions"`, and no filter otherwise. -/
theorem retrieve_filter_spec (search : Nat → SearchCall → List Doc) (log : List SearchCall)
    (question : String) (traditions : Option (List String)) (k : Nat) :
    retrieve search log question traditions k =
      (search log.length ⟨question, k, retrieveFilterSpec traditions⟩,
       log ++ [⟨question, k, retrieveFilterSpec traditions⟩]) := by
  cases traditions with
  | none => rfl
  | some ts =>
    cases ts with
    | nil => rfl
    | cons t rest =>
      by_cases hall : "All Traditions" ∈ t :: rest
      · have hc : (t :: rest).contains "All Traditions" = true := by simpa using hall
        simp [retrieve, retrieveFilterSpec, hc, hall, similarity_search]
      · have hc : (t :: rest).contains "All Traditions" = false := by simpa using hall
        have h1 : ¬("All Traditions" = t) := fun h => hall (by simp [h])
        cases rest with
        | nil => simp [retrieve, retrieveFilterSpec, hc, hall, h1, similarity_search]
        | cons r rs =>
          have h2 : "All Traditions" ∉ r :: rs := fun h => hall (List.mem_cons_of_mem _ h)
          simp [retrieve, retrieveFilterSpec, hc, hall, h1, h2, similarity_search]

/-- C8: with crisis detection enabled (as configured), a question flagged by
`detect_crisis` makes `ask_question` return the fixed crisis-resources text,
no documents and `is_crisis = true` with both call logs unchanged (no
retrieval, no LLM call); a question not flagged yields `is_crisis = false`. -/
theorem ask_question_crisis_short_circuit {Memory : Type}
    (search : Nat → SearchCall → List Doc) (slog : List SearchCall)
    (llm : Nat → QACall → String) (llog : List QACall) (memCtx : Memory → String)
    (question : String) (traditions : Option (List String))
    (conversation_history : Option (List (String × String)))
    (user_memory : Option Memory) (mode : String) (message_count : Int) :
    ENABLE_CRISIS_DETECTION = true ∧
    ((detect_crisis question).1 = true →
      ask_question search slog llm llog memCtx question traditions conversation_history
        user_memory mode message_count =
        ((CRISIS_RESOURCES_default, [], true), slog, llog)) ∧
    ((detect_crisis question).1 = false →
      (ask_question search slog llm llog memCtx question traditions conversation_history
        user_memory mode message_count).1.2.2 = false) := by
  refine ⟨rfl, fun h => ?_, fun h => ?_⟩
  · simp [ask_question, h, ENABLE_CRISIS_DETECTION, get_crisis_response]
  · simp [ask_question, h, ENABLE_CRISIS_DETECTION]

/-- C8 witness: "i want to die" is flagged and short-circuits; "hello" is
not flagged and comes back with `is_crisis = false`. -/
theorem ask_question_crisis_witness :
    ask_question (fun _ _ => ([] : List Doc)) [] (fun _ _ => "") [] (fun _ : Unit => "")
      "i want to die" none none none "standard" 0 =
      ((CRISIS_RESOURCES_default, [], true), [], []) ∧
    (ask_question (fun _ _ => ([] : List Doc)) [] (fun _ _ => "") [] (fun _ : Unit => "")
      "hello" none none none "standard" 0).1.2.2 = false :=
  ⟨(ask_question_crisis_short_circuit (fun _ _ => ([] : List Doc)) [] (fun _ _ => "") []
      (fun _ : Unit => "") "i want to die" none none none "standard" 0).2.1 (by decide),
   (ask_question_crisis_short_circuit (fun _ _ => ([] : List Doc)) [] (fun _ _ => "") []
      (fun _ : Unit => "") "hello" none none none "standard" 0).2.2 (by decide)⟩

/-! ### Association-list and string-length helper lemmas -/

theorem find_map_overwrite {β : Type} (l : List (String × β)) (k : String) (v : β)
    (h : l.any (fun e => e.1 == k) = true) :
    (l.map (fun e => if e.1 == k then (k, v) else e)).find? (fun e => e.1 == k) =
      some (k, v) := by
  induction l with
  | nil => simp at h
  | cons a t ih =>
    simp only [List.any_cons, Bool.or_eq_true] at h
    simp only [List.map_cons, List.find?_cons]
    cases ha : (a.1 == k) with
    | true => simp [ha]
    | false =>
      simp only [ha, Bool.false_eq_true, if_false]
      exact ih (h.resolve_left (by simp [ha]))

theorem find_append_right {β : Type} (l : List (String × β)) (k : String) (v : β)
    (h : l.any (fun e => e.1 == k) = false) :
    (l ++ [(k, v)]).find? (fun e => e.1 == k) = some (k, v) := by
  induction l with
  | nil => simp [List.find?]
  | cons a t ih =>
    simp only [List.any_cons, Bool.or_eq_false_iff] at h
    simp only [List.cons_append, List.find?_cons, h.1]
    exact ih h.2

theorem find_map_overwrite_ne {β : Type} (l : List (String × β)) (k k2 : String) (v : β)
    (h : k2 ≠ k) :
    (l.map (fun e => if e.1 == k then (k, v) else e)).find? (fun e => e.1 == k2) =
      l.find? (fun e => e.1 == k2) := by
  have hkk2 : (k == k2) = false := by
    simp only [beq_eq_false_iff_ne, ne_eq]
    exact fun hh => h hh.symm
  induction l with
  | nil => rfl
  | cons a t ih =>
    simp only [List.map_cons]
    cases ha : (a.1 == k) with
    | true =>
      have ha' : a.1 = k := by simpa using ha
      have ha2 : (a.1 == k2) = false := by rw [ha']; exact hkk2
      rw [if_pos rfl,
          List.find?_cons_of_neg (p := fun e : String × β => e.1 == k2) _
            (by simp only [hkk2]; exact Bool.false_ne_true),
          List.find?_cons_of_neg (p := fun e : String × β => e.1 == k2) _
            (by simp only [ha2]; exact Bool.false_ne_true)]
      exact ih
    | false =>
      rw [if_neg (by simp)]
      cases ha2 : (a.1 == k2) with
      | true =>
        rw [List.find?_cons_of_pos (p := fun e : String × β => e.1 == k2) _ ha2,
            List.find?_cons_of_pos (p := fun e : String × β => e.1 == k2) _ ha2]
      | false =>
        rw [List.find?_cons_of_neg (p := fun e : String × β => e.1 == k2) _
              (by simp only [ha2]; exact Bool.false_ne_true),
            List.find?_cons_of_neg (p := fun e : String × β => e.1 == k2) _
              (by simp only [ha2]; exact Bool.false_ne_true)]
        exact ih

theorem find_append_single_ne {β : Type} (l : List (String × β)) (k k2 : String) (v : β)
    (h : k2 ≠ k) :
    (l ++ [(k, v)]).find? (fun e => e.1 == k2) = l.find? (fun e => e.1 == k2) := by
  have hkk2 : (k == k2) = false := by
    simp only [beq_eq_false_iff_ne, ne_eq]
    exact fun hh => h hh.symm
  induction l with
  | nil =>
    simp only [List.nil_append, List.find?]
    rw [hkk2]
  | cons a t ih =>
    simp only [List.cons_append]
    cases ha2 : (a.1 == k2) with
    | true =>
      rw [List.find?_cons_of_pos (p := fun e : String × β => e.1 == k2) _ ha2,
          List.find?_cons_of_pos (p := fun e : String × β => e.1 == k2) _ ha2]
    | false =>
      rw [List.find?_cons_of_neg (p := fun e : String × β => e.1 == k2) _
            (by simp only [ha2]; exact Bool.false_ne_true),
          List.find?_cons_of_neg (p := fun e : String × β => e.1 == k2) _
            (by simp only [ha2]; exact Bool.false_ne_true)]
      exact ih

theorem mdGet_mdSet_self (md : List (String × String)) (k v : String) :
    mdGet (mdSet md k v) k = some v := by
  unfold mdGet mdSet
  cases h : md.any (fun p => p.1 == k) with
  | true => rw [if_pos rfl, find_map_overwrite md k v h]; rfl
  | false => rw [if_neg (by simp), find_append_right md k v h]; rfl

theorem mdGet_mdSet_ne (md : List (String × String)) (k k2 v : String) (h : k2 ≠ k) :
    mdGet (mdSet md k v) k2 = mdGet md k2 := by
  unfold mdGet mdSet
  cases hany : md.any (fun p => p.1 == k) with
  | true => rw [if_pos rfl, find_map_overwrite_ne md k k2 v h]
  | false => rw [if_neg (by simp), find_append_single_ne md k k2 v h]

theorem readProfileFile_write_self (dir : List (String × Profile)) (name : String)
    (p : Profile) :
    readProfileFile (writeProfileFile dir name p) name = some p := by
  unfold readProfileFile writeProfileFile
  cases h : dir.any (fun e => e.1 == name) with
  | true => rw [if_pos rfl, find_map_overwrite dir name p h]; rfl
  | false => rw [if_neg (by simp), find_append_right dir name p h]; rfl

theorem listReplaceGo_length : ∀ (fuel : Nat) (s old new : List Char),
    old.length = new.length → s.length ≤ fuel →
    (listReplaceGo fuel s old new).length = s.length := by
  intro fuel
  induction fuel with
  | zero =>
    intro s old new _ hs
    cases s with
    | nil => rfl
    | cons c rest => simp at hs
  | succ n ih =>
    intro s old new hlen hs
    cases s with
    | nil => rfl
    | cons c rest =>
      simp only [listReplaceGo]
      split
      · next h =>
        have hle : old.length ≤ (c :: rest).length :=
          (List.isPrefixOf_iff_prefix.mp h.2).length_le
        have hold : 0 < old.length := List.length_pos.mpr h.1
        simp only [List.length_cons] at hle hs
        rw [List.length_append,
            ih _ old new hlen (by simp only [List.length_drop, List.length_cons]; omega)]
        simp only [List.length_drop, List.length_cons]
        omega
      · next h =>
        simp only [List.length_cons] at hs ⊢
        rw [ih rest old new hlen (by omega)]

theorem listReplace_length_eq (s old new : List Char) (hlen : old.length = new.length) :
    (listReplace s old new).length = s.length :=
  listReplaceGo_length s.length s old new hlen le_rfl

theorem titleChars_length (b : Bool) (s : List Char) :
    (titleChars b s).length = s.length := by
  induction s generalizing b with
  | nil => rfl
  | cons c rest ih =>
    unfold titleChars
    by_cases h : c.isAlpha <;> simp [h, ih]

theorem pyTitle_ne_empty (s : String) (h : s ≠ "") : pyTitle s ≠ "" := by
  intro hc
  apply h
  have h1 : (pyTitle s).data.length = 0 := by rw [hc]; rfl
  have h2 : (pyTitle s).data.length = s.data.length := titleChars_length false s.data
  have h3 : s.data = [] := List.length_eq_zero.mp (h2 ▸ h1)
  cases s
  simp_all

theorem pyReplace_underscore_ne_empty (s : String) (h : s ≠ "") :
    pyReplace s "_" " " ≠ "" := by
  intro hc
  apply h
  have h1 : (pyReplace s "_" " ").data.length = 0 := by rw [hc]; rfl
  have h2 : (listReplace s.data "_".data " ".data).length = s.data.length :=
    listReplace_length_eq s.data "_".data " ".data rfl
  have h3 : s.data = [] := by
    apply List.length_eq_zero.mp
    rw [← h2]
    exact h1
  cases s
  simp_all

/-! ### Claim theorems (continued) -/

/-- C7: file-based profile CRUD round-trips — after
`_create_or_update_profile_file_based` writes a profile for an email,
`_get_profile_file_based` on the same email returns exactly the written
profile; and when the email's profile file does not exist,
`_get_profile_file_based` returns `none`. -/
theorem profile_file_roundtrip (dir : List (String × Profile)) (hash : String → String)
    (user_email display_name : String) (bio : Option String) (traits : Option Traits)
    (preferred_traditions : Option (List String)) (opt_in : Bool) (now : String) :
    (_get_profile_file_based
        (_create_or_update_profile_file_based dir hash user_email display_name bio traits
          preferred_traditions opt_in now).2 hash user_email =
      some (_create_or_update_profile_file_based dir hash user_email display_name bio traits
          preferred_traditions opt_in now).1) ∧
    (readProfileFile dir (_get_profile_path hash user_email) = none →
      _get_profile_file_based dir hash user_email = none) := by
  refine ⟨?_, fun h => h⟩
  exact readProfileFile_write_self dir (_get_profile_path hash user_email) _

/-- C7 witness: writing a fresh profile into an empty directory and reading
it back, and reading a missing profile. -/
theorem profile_file_roundtrip_witness :
    (_get_profile_file_based
        (_create_or_update_profile_file_based [] (fun s => s) "A@x.com" "Ada" none none
          none true "2024-01-01").2 (fun s => s) "A@x.com" =
      some (_create_or_update_profile_file_based [] (fun s => s) "A@x.com" "Ada" none none
          none true "2024-01-01").1) ∧
    _get_profile_file_based [] (fun s => s) "A@x.com" = none :=
  ⟨(profile_file_roundtrip [] (fun s => s) "A@x.com" "Ada" none none none true
      "2024-01-01").1,
   (profile_file_roundtrip [] (fun s => s) "A@x.com" "Ada" none none none true
      "2024-01-01").2 rfl⟩

/-- C5 counterexample: `get_tradition_for_file` is total, but on the
filename `".txt.txt"` it returns an empty `scripture_name` — refuting the
claim that the scripture-name field is non-empty for every filename. -/
theorem get_tradition_empty_scripture_name :
    get_tradition_for_file ".txt.txt" =
      { tradition := "Other", icon := "📖", scripture_name := "" } ∧
    (get_tradition_for_file ".txt.txt").scripture_name = "" := by
  constructor <;> decide

/-- C5 (amended): `get_tradition_for_file` is total with non-empty
`tradition` and `icon` for every filename, and non-empty `scripture_name`
for every filename that does not reduce to the empty string when its
`".txt"` occurrences are removed (the counterexample `".txt.txt"` forces
this qualification); and `load_scriptures` stamps `tradition`, `icon`,
`scripture_name`, `source_file` and `book_title` metadata from that tag on
every document it returns. -/
theorem ingestion_tags_metadata :
    (∀ filename : String,
      (get_tradition_for_file filename).tradition ≠ "" ∧
      (get_tradition_for_file filename).icon ≠ "" ∧
      (pyReplace filename ".txt" "" ≠ "" →
        (get_tradition_for_file filename).scripture_name ≠ "")) ∧
    (∀ (raw_dir_exists : Bool) (listing : List String)
        (loadUtf8 loadLatin1 : String → LoadResult),
      ∀ d ∈ load_scriptures raw_dir_exists listing loadUtf8 loadLatin1,
        ∃ filename ∈ listing, pyEndsWith (pyLower filename) ".txt" = true ∧
          mdGet d.metadata "tradition" = some (get_tradition_for_file filename).tradition ∧
          mdGet d.metadata "icon" = some (get_tradition_for_file filename).icon ∧
          mdGet d.metadata "scripture_name" =
            some (get_tradition_for_file filename).scripture_name ∧
          mdGet d.metadata "source_file" = some filename ∧
          mdGet d.metadata "book_title" =
            some (get_tradition_for_file filename).scripture_name) := by
  constructor
  · intro filename
    simp only [get_tradition_for_file]
    split
    · next trip heq =>
      have hmem := List.mem_of_find?_eq_some heq
      have hall : ∀ x ∈ traditionScripturePairs, x.1 ≠ "" ∧ x.2.1 ≠ "" ∧
          pyTitle (pyReplace (pyReplace x.2.2 ".txt" "") "_" " ") ≠ "" := by decide
      obtain ⟨ha, hb, hc⟩ := hall _ hmem
      exact ⟨ha, hb, fun _ => hc⟩
    · split
      · next quad heq =>
        have hmem := List.mem_of_find?_eq_some heq
        have hall : ∀ x ∈ TRADITION_FILE_PATTERNS,
            x.2.1 ≠ "" ∧ x.2.2.1 ≠ "" ∧ x.2.2.2 ≠ "" := by decide
        obtain ⟨ha, hb, hc⟩ := hall _ hmem
        exact ⟨ha, hb, fun _ => hc⟩
      · exact ⟨(by decide : ("Other" : String) ≠ ""), (by decide : ("📖" : String) ≠ ""),
          fun h => pyTitle_ne_empty _ (pyReplace_underscore_ne_empty _ h)⟩
  · intro raw_dir_exists listing loadUtf8 loadLatin1 d hd
    cases raw_dir_exists with
    | false => simp [load_scriptures] at hd
    | true =>
      simp only [load_scriptures, Bool.not_true, Bool.false_eq_true, if_false,
        List.mem_flatMap] at hd
      obtain ⟨f, hf, hdf⟩ := hd
      rw [List.mem_filter] at hf
      simp only [load_one_scripture, List.mem_map] at hdf
      obtain ⟨d0, _, rfl⟩ := hdf
      refine ⟨f, hf.1, hf.2, ?_, ?_, ?_, ?_, ?_⟩ <;>
        simp only [scriptureMetadata]
      · rw [mdGet_mdSet_ne _ _ _ _ (by decide), mdGet_mdSet_ne _ _ _ _ (by decide),
            mdGet_mdSet_ne _ _ _ _ (by decide), mdGet_mdSet_ne _ _ _ _ (by decide),
            mdGet_mdSet_self]
      · rw [mdGet_mdSet_ne _ _ _ _ (by decide), mdGet_mdSet_ne _ _ _ _ (by decide),
            mdGet_mdSet_ne _ _ _ _ (by decide), mdGet_mdSet_self]
      · rw [mdGet_mdSet_ne _ _ _ _ (by decide), mdGet_mdSet_ne _ _ _ _ (by decide),
            mdGet_mdSet_self]
      · rw [mdGet_mdSet_ne _ _ _ _ (by decide), mdGet_mdSet_self]
      · rw [mdGet_mdSet_self]

/-! ### Compatibility-score helper lemmas -/

theorem compatStep_fst (p1 p2 : Profile) (acc : ℚ × List String) (cw : String × ℚ) :
    (compatStep p1 p2 acc cw).1 =
      acc.1 + specCategoryTerm cw.2 (traitsGet p1.traits cw.1) (traitsGet p2.traits cw.1) := by
  unfold compatStep specCategoryTerm
  by_cases e1 : pySet (traitsGet p1.traits cw.1) = [] <;>
    by_cases e2 : pySet (traitsGet p2.traits cw.1) = [] <;>
      by_cases e3 : pyInter (pySet (traitsGet p1.traits cw.1))
        (pySet (traitsGet p2.traits cw.1)) = [] <;>
    simp [e1, e2, e3, List.isEmpty_iff]

theorem compat_fold_fst (p1 p2 : Profile) (init : ℚ × List String) :
    (COMPAT_WEIGHTS.foldl (compatStep p1 p2) init).1 =
      init.1
        + specCategoryTerm 30 (traitsGet p1.traits "seeking_support_for")
            (traitsGet p2.traits "seeking_support_for")
        + specCategoryTerm 25 (traitsGet p1.traits "preferred_traditions")
            (traitsGet p2.traits "preferred_traditions")
        + specCategoryTerm 20 (traitsGet p1.traits "spiritual_journey")
            (traitsGet p2.traits "spiritual_journey")
        + specCategoryTerm 15 (traitsGet p1.traits "primary_interests")
            (traitsGet p2.traits "primary_interests")
        + specCategoryTerm 10 (traitsGet p1.traits "connection_style")
            (traitsGet p2.traits "connection_style") := by
  simp only [COMPAT_WEIGHTS, List.foldl_cons, List.foldl_nil, compatStep_fst]

theorem compat_fst_eq_spec (p1 p2 : Profile) :
    (calculate_compatibility_score p1 p2).1 = compatScoreSpec p1 p2 := by
  unfold calculate_compatibility_score compatScoreSpec
  cases h : (!p1.opt_in || !p2.opt_in) with
  | true => rfl
  | false =>
    simp only [Bool.false_eq_true, if_false]
    by_cases hb : pyInter (pySet p1.preferred_traditions) (pySet p2.preferred_traditions) = []
    · rw [if_neg (by simp [hb, List.isEmpty_iff]), if_neg (by simp [hb])]
      rw [compat_fold_fst]
      congr 1
      ring
    · rw [if_pos (by simp [hb, List.isEmpty_iff]), if_pos hb]
      simp only [compat_fold_fst]
      congr 1
      ring

theorem pyInter_length_card (l1 l2 : List String) :
    (pyInter (pySet l1) (pySet l2)).length = (l1.toFinset ∩ l2.toFinset).card := by
  unfold pyInter pySet
  have hnd : (l1.dedup.filter (fun x => l2.dedup.contains x)).Nodup :=
    List.Nodup.filter _ (List.nodup_dedup l1)
  rw [← List.toFinset_card_of_nodup hnd]
  congr 1
  ext x
  simp [List.mem_filter, List.mem_dedup]

theorem pyInter_ne_nil_iff (l1 l2 : List String) :
    pyInter (pySet l1) (pySet l2) ≠ [] ↔ ∃ x, x ∈ l1 ∧ x ∈ l2 := by
  unfold pyInter pySet
  constructor
  · intro h
    obtain ⟨x, hx⟩ := List.exists_mem_of_ne_nil _ h
    rw [List.mem_filter] at hx
    refine ⟨x, List.mem_dedup.mp hx.1, ?_⟩
    have := hx.2
    simp only [List.elem_eq_mem, List.mem_dedup, decide_eq_true_eq] at this
    exact this
  · rintro ⟨x, h1, h2⟩ hnil
    have hx : x ∈ l1.dedup.filter (fun x => l2.dedup.contains x) :=
      List.mem_filter.mpr ⟨List.mem_dedup.mpr h1, by
        simp only [List.elem_eq_mem, List.mem_dedup, decide_eq_true_eq]
        exact h2⟩
    rw [hnil] at hx
    exact absurd hx (List.not_mem_nil x)

theorem specCategoryTerm_comm (w : ℚ) (l1 l2 : List String) :
    specCategoryTerm w l1 l2 = specCategoryTerm w l2 l1 := by
  unfold specCategoryTerm
  have hlen : (pyInter (pySet l1) (pySet l2)).length =
      (pyInter (pySet l2) (pySet l1)).length := by
    rw [pyInter_length_card, pyInter_length_card, Finset.inter_comm]
  have hne : (pyInter (pySet l1) (pySet l2) ≠ []) ↔ (pyInter (pySet l2) (pySet l1) ≠ []) := by
    rw [pyInter_ne_nil_iff, pyInter_ne_nil_iff]
    constructor <;> rintro ⟨x, a, b⟩ <;> exact ⟨x, b, a⟩
  by_cases h1 : pySet l1 = []
  · rw [if_neg (by simp [h1]), if_neg (by simp [h1])]
  · by_cases h2 : pySet l2 = []
    · rw [if_neg (by simp [h2]), if_neg (by simp [h2])]
    · by_cases h3 : pyInter (pySet l1) (pySet l2) = []
      · have h3' : pyInter (pySet l2) (pySet l1) = [] := by
          by_contra hc
          exact (hne.mpr hc) h3
        rw [if_neg (by simp [h3]), if_neg (by simp [h3'])]
      · have h3' : pyInter (pySet l2) (pySet l1) ≠ [] := hne.mp h3
        rw [if_pos ⟨h1, h2, h3⟩, if_pos ⟨h2, h1, h3'⟩, hlen,
            max_comm (((pySet l1).length : ℚ)) (((pySet l2).length : ℚ))]

theorem specCategoryTerm_nonneg (w : ℚ) (l1 l2 : List String) (hw : 0 ≤ w) :
    0 ≤ specCategoryTerm w l1 l2 := by
  unfold specCategoryTerm
  split
  · exact div_nonneg (mul_nonneg hw (Nat.cast_nonneg _))
      (le_trans (Nat.cast_nonneg _) (le_max_left _ _))
  · exact le_refl 0

theorem compatScoreSpec_comm (p1 p2 : Profile) :
    compatScoreSpec p1 p2 = compatScoreSpec p2 p1 := by
  unfold compatScoreSpec
  rw [Bool.or_comm]
  cases h : (!p2.opt_in || !p1.opt_in) with
  | true => rfl
  | false =>
    simp only [Bool.false_eq_true, if_false]
    have hb : (pyInter (pySet p1.preferred_traditions) (pySet p2.preferred_traditions) ≠ []) ↔
        (pyInter (pySet p2.preferred_traditions) (pySet p1.preferred_traditions) ≠ []) := by
      rw [pyInter_ne_nil_iff, pyInter_ne_nil_iff]
      constructor <;> rintro ⟨x, a, b⟩ <;> exact ⟨x, b, a⟩
    rw [specCategoryTerm_comm 30, specCategoryTerm_comm 25, specCategoryTerm_comm 20,
        specCategoryTerm_comm 15, specCategoryTerm_comm 10, if_congr hb rfl rfl]

theorem compatScoreSpec_bounds (p1 p2 : Profile) :
    0 ≤ compatScoreSpec p1 p2 ∧ compatScoreSpec p1 p2 ≤ 100 := by
  unfold compatScoreSpec
  cases h : (!p1.opt_in || !p2.opt_in) with
  | true => exact ⟨le_refl 0, by norm_num⟩
  | false =>
    simp only [Bool.false_eq_true, if_false]
    refine ⟨le_min (by norm_num) ?_, min_le_left _ _⟩
    have t30 := specCategoryTerm_nonneg 30 (traitsGet p1.traits "seeking_support_for")
      (traitsGet p2.traits "seeking_support_for") (by norm_num)
    have t25 := specCategoryTerm_nonneg 25 (traitsGet p1.traits "preferred_traditions")
      (traitsGet p2.traits "preferred_traditions") (by norm_num)
    have t20 := specCategoryTerm_nonneg 20 (traitsGet p1.traits "spiritual_journey")
      (traitsGet p2.traits "spiritual_journey") (by norm_num)
    have t15 := specCategoryTerm_nonneg 15 (traitsGet p1.traits "primary_interests")
      (traitsGet p2.traits "primary_interests") (by norm_num)
    have t10 := specCategoryTerm_nonneg 10 (traitsGet p1.traits "connection_style")
      (traitsGet p2.traits "connection_style") (by norm_num)
    have tb : (0:ℚ) ≤ (if pyInter (pySet p1.preferred_traditions)
        (pySet p2.preferred_traditions) ≠ [] then 10 else 0) := by
      split <;> norm_num
    positivity

/-- C2: `calculate_compatibility_score` returns `(0, [])` when either
profile has not opted in; otherwise its score is `min(100, S)` where `S` is
the weighted sum over the five categories (weight · |set1 ∩ set2| /
max(|set1|, |set2|) when both sets are non-empty and overlap) plus a bonus
of 10 when the top-level preferred-traditions lists intersect
(`compatScoreSpec` states that formula in the claim's words). -/
theorem compatibility_score_formula (p1 p2 : Profile) :
    (¬(p1.opt_in = true ∧ p2.opt_in = true) → calculate_compatibility_score p1 p2 = (0, [])) ∧
    (calculate_compatibility_score p1 p2).1 = compatScoreSpec p1 p2 := by
  refine ⟨fun h => ?_, compat_fst_eq_spec p1 p2⟩
  unfold calculate_compatibility_score
  have hc : (!p1.opt_in || !p2.opt_in) = true := by
    cases hp : p1.opt_in <;> cases hq : p2.opt_in <;> simp_all
  simp [hc]

/-- C2 witness: a pair with one opted-out profile scores `(0, [])`, and the
score of a concrete opted-in pair equals the spec formula. -/
theorem compatibility_score_formula_witness :
    calculate_compatibility_score
        { email := "a@x", display_name := "A", bio := "", traits := {},
          preferred_traditions := [], opt_in := false, created_at := "",
          updated_at := "", last_active := "", connections := [],
          connection_requests := [] }
        { email := "b@x", display_name := "B", bio := "", traits := {},
          preferred_traditions := [], opt_in := true, created_at := "",
          updated_at := "", last_active := "", connections := [],
          connection_requests := [] } = (0, []) :=
  (compatibility_score_formula _ _).1 (by decide)

/-- C9: the compatibility score is symmetric in its two profiles and always
lies in the closed interval `[0, 100]`. -/
theorem compatibility_score_symm_bounded (p1 p2 : Profile) :
    (calculate_compatibility_score p1 p2).1 = (calculate_compatibility_score p2 p1).1 ∧
    0 ≤ (calculate_compatibility_score p1 p2).1 ∧
    (calculate_compatibility_score p1 p2).1 ≤ 100 := by
  rw [compat_fst_eq_spec, compat_fst_eq_spec]
  exact ⟨compatScoreSpec_comm p1 p2, (compatScoreSpec_bounds p1 p2).1,
    (compatScoreSpec_bounds p1 p2).2⟩

theorem pythonRound_ge (n : ℤ) (q : ℚ) (h : (n : ℚ) ≤ q) : n ≤ pythonRound q := by
  have hf : n ≤ ⌊q⌋ := Int.le_floor.mpr h
  simp only [pythonRound]
  by_cases h1 : q - ⌊q⌋ < 1/2
  · rw [if_pos h1]; exact hf
  · rw [if_neg h1]
    by_cases h2 : q - ⌊q⌋ > 1/2
    · rw [if_pos h2]; omega
    · rw [if_neg h2]
      by_cases h3 : ⌊q⌋ % 2 = 0
      · rw [if_pos h3]; exact hf
      · rw [if_neg h3]; omega

/-- C10: every match `find_matches` returns (file-based mode) has a rounded
compatibility score of at least 20 and comes from a stored `.json` profile
of a different, opted-in user; the list is sorted by score in descending
order and has at most `limit` entries; and when the requesting user's own
profile is missing or not opted in, the result is empty. -/
theorem find_matches_postconditions (dir : List (String × Profile)) (hash : String → String)
    (user_email : String) (limit : Nat) :
    (∀ m ∈ find_matches dir hash user_email limit,
        20 ≤ m.compatibility_score ∧
        m.email ≠ pyLower user_email ∧
        ∃ e ∈ dir, pyEndsWith e.1 ".json" = true ∧ e.2.opt_in = true ∧
          m.email = e.2.email ∧ m.display_name = e.2.display_name) ∧
    List.Pairwise (fun a b => b.compatibility_score ≤ a.compatibility_score)
      (find_matches dir hash user_email limit) ∧
    (find_matches dir hash user_email limit).length ≤ limit ∧
    (_get_profile_file_based dir hash user_email = none →
      find_matches dir hash user_email limit = []) ∧
    (∀ up, _get_profile_file_based dir hash user_email = some up → up.opt_in = false →
      find_matches dir hash user_email limit = []) := by
  rcases hup : _get_profile_file_based dir hash user_email with _ | up
  · have hfm : find_matches dir hash user_email limit = [] := by
      unfold find_matches; rw [hup]
    rw [hfm]
    exact ⟨fun m hm => absurd hm (List.not_mem_nil m), List.Pairwise.nil, by simp,
      fun _ => rfl, fun _ _ _ => rfl⟩
  · cases hopt : up.opt_in with
    | false =>
      have hfm : find_matches dir hash user_email limit = [] := by
        unfold find_matches; rw [hup]; simp [hopt]
      rw [hfm]
      exact ⟨fun m hm => absurd hm (List.not_mem_nil m), List.Pairwise.nil, by simp,
        fun _ => rfl, fun _ _ _ => rfl⟩
    | true =>
      have htrans : ∀ a b c : MatchEntry,
          decide (b.compatibility_score ≤ a.compatibility_score) = true →
          decide (c.compatibility_score ≤ b.compatibility_score) = true →
          decide (c.compatibility_score ≤ a.compatibility_score) = true := by
        intro a b c hab hbc
        exact decide_eq_true (le_trans (of_decide_eq_true hbc) (of_decide_eq_true hab))
      have htotal : ∀ a b : MatchEntry,
          (decide (b.compatibility_score ≤ a.compatibility_score) ||
           decide (a.compatibility_score ≤ b.compatibility_score)) = true := by
        intro a b
        rw [Bool.or_eq_true]
        rcases le_total b.compatibility_score a.compatibility_score with h | h
        · exact Or.inl (decide_eq_true h)
        · exact Or.inr (decide_eq_true h)
      have hfm : find_matches dir hash user_email limit =
          (((((dir.filter (fun e => pyEndsWith e.1 ".json")).map (·.2)).filter
              (fun other => other.email != pyLower user_email && other.opt_in)).filterMap
              (matchEntryFor up)).mergeSort
              (fun a b => decide (b.compatibility_score ≤ a.compatibility_score))).take
            limit := by
        unfold find_matches _find_matches_file_based
        rw [hup]
        simp [hopt]
      refine ⟨?_, ?_, ?_, ?_, ?_⟩
      · intro m hm
        rw [hfm] at hm
        have hm2 := List.take_subset _ _ hm
        have hm3 := (List.mergeSort_perm _
          (fun a b : MatchEntry =>
            decide (b.compatibility_score ≤ a.compatibility_score))).mem_iff.mp hm2
        rw [List.mem_filterMap] at hm3
        obtain ⟨other, hother, heq⟩ := hm3
        rw [List.mem_filter] at hother
        obtain ⟨hjson, hcond⟩ := hother
        rw [Bool.and_eq_true] at hcond
        obtain ⟨hne_b, hopt_b⟩ := hcond
        rw [List.mem_map] at hjson
        obtain ⟨e, he, heq2⟩ := hjson
        subst heq2
        rw [List.mem_filter] at he
        simp only [matchEntryFor] at heq
        split at heq
        · next h20 =>
          rw [Option.some.injEq] at heq
          subst heq
          refine ⟨pythonRound_ge 20 _ (by exact_mod_cast h20), by simpa using hne_b,
            e, he.1, he.2, hopt_b, rfl, rfl⟩
        · next => cases heq
      · rw [hfm]
        refine List.Pairwise.sublist (List.take_sublist _ _) ?_
        exact (List.sorted_mergeSort htrans htotal _).imp (fun h => of_decide_eq_true h)
      · rw [hfm, List.length_take]
        exact min_le_left _ _
      · intro h; cases h
      · intro up' h1 h2
        rw [Option.some.injEq] at h1
        subst h1
        rw [hopt] at h2
        cases h2

/-- C10 witness: for an empty profiles directory (the requesting user has no
profile) the result is the empty list. -/
theorem find_matches_postconditions_witness :
    find_matches [] (fun s => s) "a@x" 10 = [] :=
  (find_matches_postconditions [] (fun s => s) "a@x" 10).2.2.2.1 rfl

/-- C5 witness: a filename whose `".txt"`-stripped form is non-empty gets a
non-empty scripture name, and a concrete one-file ingestion run stamps all
five metadata keys. -/
theorem ingestion_tags_metadata_witness :
    (get_tradition_for_file "zz.txt").scripture_name ≠ "" ∧
    (∃ filename ∈ ["a.txt"], pyEndsWith (pyLower filename) ".txt" = true ∧
      mdGet (scriptureMetadata [("source", "a.txt")] (get_tradition_for_file "a.txt")
          "a.txt") "tradition" = some (get_tradition_for_file filename).tradition ∧
      mdGet (scriptureMetadata [("source", "a.txt")] (get_tradition_for_file "a.txt")
          "a.txt") "icon" = some (get_tradition_for_file filename).icon ∧
      mdGet (scriptureMetadata [("source", "a.txt")] (get_tradition_for_file "a.txt")
          "a.txt") "scripture_name" = some (get_tradition_for_file filename).scripture_name ∧
      mdGet (scriptureMetadata [("source", "a.txt")] (get_tradition_for_file "a.txt")
          "a.txt") "source_file" = some filename ∧
      mdGet (scriptureMetadata [("source", "a.txt")] (get_tradition_for_file "a.txt")
          "a.txt") "book_title" = some (get_tradition_for_file filename).scripture_name) :=
  ⟨(ingestion_tags_metadata.1 "zz.txt").2.2 (by decide),
   ingestion_tags_metadata.2 true ["a.txt"]
     (fun _ => Except.ok [⟨"some text", [("source", "a.txt")]⟩])
     (fun _ => Except.error "utf8 failed")
     ⟨clean_text "some text",
      scriptureMetadata [("source", "a.txt")] (get_tradition_for_file "a.txt") "a.txt"⟩
     (by decide)⟩
